import Mathlib

/-!
Verification of the Project-sentinel analysis engine
(`src/analysis/models.py`, `src/analysis/pattaasu.py`,
`src/analysis/deep_analysis.py`) against its natural-language specification.

Python `Decimal` values are modelled as `ℚ` (arbitrary-precision exact
arithmetic); `None`-able fields as `Option ℚ`.  Pydantic construction of
`PattaasuMetrics` is modelled as a function returning
`Except (List String) PattaasuMetrics`: field-level validation (field
bounds and `field_validator`s, in field order) collects every error, and
the `mode="after"` model validators run only when every field validated,
stopping at the first that raises — exactly pydantic v2's semantics.
-/

/-- Competitive moat strength rating (`MoatRating` in models.py). -/
inductive MoatRating where
  | wide
  | narrow
  | none
deriving DecidableEq, Repr

/-- Risk assessment level (`RiskLevel` in models.py). -/
inductive RiskLevel where
  | low
  | medium
  | high
  | critical
deriving DecidableEq, Repr, Fintype

/-- Investment rating scale (`Rating` in deep_analysis.py). -/
inductive Rating where
  | STRONG_BUY
  | BUY
  | HOLD
  | SELL
  | STRONG_SELL
deriving DecidableEq, Repr

/-- The keyword arguments of a `PattaasuMetrics(...)` construction attempt
(models.py lines 142-198): required fields plus the defaulted ones. -/
structure PattaasuInput where
  ticker : String
  company_name : String := ""
  debt_to_equity : ℚ
  total_debt : ℚ := 0
  total_equity : ℚ := 1
  promoter_pledging_pct : ℚ
  promoter_holding_pct : Option ℚ := Option.none
  free_cash_flow_year1 : ℚ
  free_cash_flow_year2 : ℚ
  free_cash_flow_year3 : ℚ
  moat_rating : MoatRating := MoatRating.none
  moat_reasoning : String := ""
deriving DecidableEq, Repr

/-- A successfully constructed `PattaasuMetrics` object (models.py lines
123-319), with the `pattaasu_score` computed by the model validator. -/
structure PattaasuMetrics where
  ticker : String
  company_name : String
  debt_to_equity : ℚ
  total_debt : ℚ
  total_equity : ℚ
  promoter_pledging_pct : ℚ
  promoter_holding_pct : Option ℚ
  free_cash_flow_year1 : ℚ
  free_cash_flow_year2 : ℚ
  free_cash_flow_year3 : ℚ
  moat_rating : MoatRating
  moat_reasoning : String
  pattaasu_score : ℚ
deriving DecidableEq, Repr

/-- Pydantic `Field(..., min_length=1, max_length=10)` errors for `ticker`. -/
def tickerFieldErrors (t : String) : List String :=
  if t.length < 1 then ["ticker: String should have at least 1 character"]
  else if 10 < t.length then ["ticker: String should have at most 10 characters"]
  else []

/-- `validate_debt_to_equity` (models.py lines 200-216): rejects `v ≥ 1.0`
then `v < 0`. -/
def deFieldErrors (v : ℚ) : List String :=
  if 1 ≤ v then
    ["Debt-to-Equity ratio " ++ toString v ++
      " exceeds Pattaasu limit of 1.0. Company has excessive leverage."]
  else if v < 0 then ["Invalid negative D/E ratio: " ++ toString v]
  else []

/-- `total_debt : PositiveDecimal` — pydantic `Field(ge=0)`. -/
def totalDebtFieldErrors (v : ℚ) : List String :=
  if v < 0 then ["total_debt: Input should be greater than or equal to 0"]
  else []

/-- `promoter_pledging_pct : Percentage` — pydantic bounds `[0,100]` run
first; `validate_promoter_pledging` (models.py lines 218-233) runs after
them and rejects any `v > 0`. -/
def pledgingFieldErrors (v : ℚ) : List String :=
  if v < 0 then
    ["promoter_pledging_pct: Input should be greater than or equal to 0"]
  else if 100 < v then
    ["promoter_pledging_pct: Input should be less than or equal to 100"]
  else if 0 < v then
    ["Promoter pledging detected: " ++ toString v ++
      "%. Pattaasu criteria requires 0% pledging. " ++
      "High pledging indicates promoter financial stress."]
  else []

/-- `promoter_holding_pct : Percentage | None` — bounds apply only when
the value is present. -/
def holdingFieldErrors (o : Option ℚ) : List String :=
  match o with
  | Option.none => []
  | some v =>
    if v < 0 then
      ["promoter_holding_pct: Input should be greater than or equal to 0"]
    else if 100 < v then
      ["promoter_holding_pct: Input should be less than or equal to 100"]
    else []

/-- All field-level validation errors of a `PattaasuMetrics` construction,
in pydantic's field order. -/
def fieldErrors (i : PattaasuInput) : List String :=
  tickerFieldErrors i.ticker ++
  deFieldErrors i.debt_to_equity ++
  totalDebtFieldErrors i.total_debt ++
  pledgingFieldErrors i.promoter_pledging_pct ++
  holdingFieldErrors i.promoter_holding_pct

/-- The failing year names of `validate_cash_flow_consistency`
(models.py lines 235-258): `[name for name, fcf in fcf_values if fcf <= 0]`. -/
def negYears (f1 f2 f3 : ℚ) : List String :=
  (if f1 ≤ 0 then ["Year 1"] else []) ++
  (if f2 ≤ 0 then ["Year 2"] else []) ++
  (if f3 ≤ 0 then ["Year 3"] else [])

/-- Debt sub-score of `calculate_pattaasu_score` (models.py lines 265-275). -/
def debtScore (de : ℚ) : ℚ :=
  if de = 0 then 30
  else if de < 0.1 then 25
  else if de < 0.3 then 20
  else if de < 0.5 then 15
  else 10

/-- Moat sub-score of `calculate_pattaasu_score` (models.py lines 290-296). -/
def moatScore : MoatRating → ℚ
  | MoatRating.wide => 20
  | MoatRating.narrow => 10
  | MoatRating.none => 0

/-- `calculate_pattaasu_score` (models.py lines 260-299): debt (max 30) +
pledging (max 25, all or nothing) + 3-year-average FCF (max 25) + moat
(max 20). -/
def pattaasuScoreCalc (i : PattaasuInput) : ℚ :=
  debtScore i.debt_to_equity +
  (if i.promoter_pledging_pct = 0 then 25 else 0) +
  (if 0 < (i.free_cash_flow_year1 + i.free_cash_flow_year2 +
      i.free_cash_flow_year3) / 3 then 25 else 0) +
  moatScore i.moat_rating

/-- The object the successful construction path produces: the input's
fields with the computed `pattaasu_score`. -/
def mkPattaasu (i : PattaasuInput) : PattaasuMetrics :=
  { ticker := i.ticker
    company_name := i.company_name
    debt_to_equity := i.debt_to_equity
    total_debt := i.total_debt
    total_equity := i.total_equity
    promoter_pledging_pct := i.promoter_pledging_pct
    promoter_holding_pct := i.promoter_holding_pct
    free_cash_flow_year1 := i.free_cash_flow_year1
    free_cash_flow_year2 := i.free_cash_flow_year2
    free_cash_flow_year3 := i.free_cash_flow_year3
    moat_rating := i.moat_rating
    moat_reasoning := i.moat_reasoning
    pattaasu_score := pattaasuScoreCalc i }

/-- `PattaasuMetrics(**kwargs)` under pydantic v2 semantics: collect every
field-level error; only when there is none run the `mode="after"` model
validators (`validate_cash_flow_consistency`, then
`calculate_pattaasu_score`). -/
def constructPattaasu (i : PattaasuInput) : Except (List String) PattaasuMetrics :=
  if fieldErrors i = [] then
    if negYears i.free_cash_flow_year1 i.free_cash_flow_year2
        i.free_cash_flow_year3 = [] then
      Except.ok (mkPattaasu i)
    else
      Except.error ["Negative FCF in: " ++ String.intercalate ", "
        (negYears i.free_cash_flow_year1 i.free_cash_flow_year2
          i.free_cash_flow_year3) ++
        ". Pattaasu criteria requires positive FCF for all 3 years."]
  else Except.error (fieldErrors i)

/-- `is_pattaasu_compliant` (models.py lines 310-319): redundant re-check
of the three Pattaasu invariants on the constructed object. -/
def PattaasuMetrics.is_pattaasu_compliant (m : PattaasuMetrics) : Bool :=
  decide (m.debt_to_equity < 1 ∧ m.promoter_pledging_pct = 0 ∧
    0 < m.free_cash_flow_year1 ∧ 0 < m.free_cash_flow_year2 ∧
    0 < m.free_cash_flow_year3)

/-- `fcf_3yr_average` (models.py lines 301-308). -/
def PattaasuMetrics.fcf_3yr_average (m : PattaasuMetrics) : ℚ :=
  (m.free_cash_flow_year1 + m.free_cash_flow_year2 +
    m.free_cash_flow_year3) / 3

/-- Whether an `Except`-modelled construction succeeded. -/
def isSuccess {ε α : Type} : Except ε α → Bool
  | Except.ok _ => true
  | Except.error _ => false

/-- Number of violations a construction attempt is rejected with
(0 when it succeeds). -/
def rejectionCount (i : PattaasuInput) : ℕ :=
  match constructPattaasu i with
  | Except.error es => es.length
  | Except.ok _ => 0

lemma tickerFieldErrors_nil {t : String} :
    tickerFieldErrors t = [] ↔ 1 ≤ t.length ∧ t.length ≤ 10 := by
  unfold tickerFieldErrors
  split_ifs with h1 h2 <;> simp <;> omega

lemma deFieldErrors_nil {v : ℚ} :
    deFieldErrors v = [] ↔ 0 ≤ v ∧ v < 1 := by
  unfold deFieldErrors
  split_ifs with h1 h2
  · simp
    intro h
    linarith
  · simp
    intro h
    linarith
  · simp
    exact ⟨by linarith, by linarith⟩

lemma totalDebtFieldErrors_nil {v : ℚ} :
    totalDebtFieldErrors v = [] ↔ 0 ≤ v := by
  unfold totalDebtFieldErrors
  split_ifs with h
  · simp
    linarith
  · simp
    linarith

lemma pledgingFieldErrors_nil {v : ℚ} :
    pledgingFieldErrors v = [] ↔ v = 0 := by
  unfold pledgingFieldErrors
  split_ifs with h1 h2 h3
  · simp
    intro h
    linarith
  · simp
    intro h
    linarith
  · simp
    intro h
    linarith
  · simp
    exact le_antisymm (by linarith) (by linarith)

lemma negYears_nil {f1 f2 f3 : ℚ} :
    negYears f1 f2 f3 = [] ↔ 0 < f1 ∧ 0 < f2 ∧ 0 < f3 := by
  unfold negYears
  constructor
  · intro h
    refine ⟨?_, ?_, ?_⟩ <;> by_contra hc <;> push_neg at hc <;>
      simp [hc] at h
  · rintro ⟨h1, h2, h3⟩
    rw [if_neg (by linarith), if_neg (by linarith), if_neg (by linarith)]
    rfl

lemma fieldErrors_nil {i : PattaasuInput} :
    fieldErrors i = [] ↔
      (1 ≤ i.ticker.length ∧ i.ticker.length ≤ 10) ∧
      (0 ≤ i.debt_to_equity ∧ i.debt_to_equity < 1) ∧
      0 ≤ i.total_debt ∧
      i.promoter_pledging_pct = 0 ∧
      holdingFieldErrors i.promoter_holding_pct = [] := by
  unfold fieldErrors
  rw [List.append_eq_nil, List.append_eq_nil, List.append_eq_nil,
    List.append_eq_nil]
  rw [tickerFieldErrors_nil, deFieldErrors_nil, totalDebtFieldErrors_nil,
    pledgingFieldErrors_nil]
  tauto

/-- Inversion of a successful construction: the object is `mkPattaasu i`
and the input satisfied every validator. -/
lemma constructPattaasu_ok {i : PattaasuInput} {m : PattaasuMetrics}
    (h : constructPattaasu i = Except.ok m) :
    m = mkPattaasu i ∧ fieldErrors i = [] ∧
      negYears i.free_cash_flow_year1 i.free_cash_flow_year2
        i.free_cash_flow_year3 = [] := by
  unfold constructPattaasu at h
  split_ifs at h with h1 h2
  · refine ⟨?_, h1, h2⟩
    injection h with h
    exact h.symm

example : isSuccess (constructPattaasu
    { ticker := "PERFECT", debt_to_equity := 0.1,
      promoter_pledging_pct := 0, free_cash_flow_year1 := 100000000,
      free_cash_flow_year2 := 90000000, free_cash_flow_year3 := 80000000 }) =
    true := by
  norm_num [constructPattaasu, fieldErrors, tickerFieldErrors, deFieldErrors,
    totalDebtFieldErrors, pledgingFieldErrors, holdingFieldErrors, negYears,
    isSuccess]
  decide

example : (mkPattaasu
    { ticker := "NODBT", debt_to_equity := 0, promoter_pledging_pct := 0,
      free_cash_flow_year1 := 100, free_cash_flow_year2 := 100,
      free_cash_flow_year3 := 100,
      moat_rating := MoatRating.wide }).pattaasu_score = 100 := by
  norm_num [mkPattaasu, pattaasuScoreCalc, debtScore, moatScore]

/-- `FinancialMetrics` (models.py lines 58-120): the fields the claims
touch; monetary fields are nullable decimals. -/
structure FinancialMetrics where
  ticker : String
  total_debt : Option ℚ := Option.none
  total_equity : Option ℚ := Option.none
  cash_and_equivalents : Option ℚ := Option.none
  total_liabilities : Option ℚ := Option.none
deriving DecidableEq, Repr

/-- The `debt_to_equity` derived property (models.py lines 113-120):
`None` when either side is missing, the sentinel `999.99` when
equity ≤ 0, else the exact quotient. -/
def FinancialMetrics.debt_to_equity (m : FinancialMetrics) : Option ℚ :=
  match m.total_debt, m.total_equity with
  | some d, some e => if e ≤ 0 then some (999.99 : ℚ) else some (d / e)
  | _, _ => Option.none

/-- A `RiskAssessment` (models.py lines 322-342): five component levels,
the aggregate, and the explanation lists. `market_risk` and `sector_risk`
keep their model defaults (`medium`) because `calculate_risk_assessment`
never passes them. -/
structure RiskAssessment where
  ticker : String
  overall_risk : RiskLevel
  leverage_risk : RiskLevel
  liquidity_risk : RiskLevel
  governance_risk : RiskLevel
  market_risk : RiskLevel := RiskLevel.medium
  sector_risk : RiskLevel := RiskLevel.medium
  risk_factors : List String
  mitigants : List String
deriving DecidableEq, Repr

/-- Leverage-risk branch of `calculate_risk_assessment` (pattaasu.py lines
132-146), returning (level, risk_factors appended, mitigants appended). -/
def leverageRiskOf (de : Option ℚ) : RiskLevel × List String × List String :=
  match de with
  | Option.none => (RiskLevel.medium, [], [])
  | some v =>
    if v < 0.3 then
      (RiskLevel.low, [], ["Low leverage provides financial flexibility"])
    else if v < 0.7 then (RiskLevel.medium, [], [])
    else if v < 1 then
      (RiskLevel.high, ["Elevated leverage (D/E: " ++ toString v ++ ")"], [])
    else
      (RiskLevel.critical, ["Excessive leverage (D/E: " ++ toString v ++ ")"], [])

/-- Liquidity-risk branch (pattaasu.py lines 148-160).  The source guard is
`if metrics.cash_and_equivalents and metrics.total_liabilities:` — Python
truthiness, so a present `Decimal("0")` in either field falls through to
the not-computable default, medium. -/
def liquidityRiskOf (cash liab : Option ℚ) :
    RiskLevel × List String × List String :=
  match cash, liab with
  | some c, some l =>
    if c ≠ 0 ∧ l ≠ 0 then
      if c / l > 0.2 then (RiskLevel.low, [], ["Strong cash position"])
      else if c / l > 0.1 then (RiskLevel.medium, [], [])
      else (RiskLevel.high, ["Limited liquidity buffer"], [])
    else (RiskLevel.medium, [], [])
  | _, _ => (RiskLevel.medium, [], [])

/-- Governance-risk branch (pattaasu.py lines 162-171). -/
def governanceRiskOf (pattaasu : Option PattaasuMetrics) :
    RiskLevel × List String × List String :=
  match pattaasu with
  | Option.none => (RiskLevel.medium, [], [])
  | some p =>
    if p.promoter_pledging_pct > 0 then
      (RiskLevel.high,
        ["Promoter pledging: " ++ toString p.promoter_pledging_pct ++ "%"], [])
    else (RiskLevel.low, [], ["Zero promoter pledging"])

/-- The aggregation rule over a list of component levels (pattaasu.py lines
173-185): any critical dominates, then ≥2 high, then a single high dilutes
to medium, then ≥2 low, else medium. -/
def overallFromLevels (levels : List RiskLevel) : RiskLevel :=
  if RiskLevel.critical ∈ levels then RiskLevel.critical
  else if 2 ≤ levels.count RiskLevel.high then RiskLevel.high
  else if RiskLevel.high ∈ levels then RiskLevel.medium
  else if 2 ≤ levels.count RiskLevel.low then RiskLevel.low
  else RiskLevel.medium

/-- `PattaasuAnalyzer.calculate_risk_assessment` (pattaasu.py lines
114-196).  The aggregate is computed from the three derived components
only — `risk_levels = [leverage_risk, liquidity_risk, governance_risk]` —
while `market_risk` and `sector_risk` stay at their `medium` defaults. -/
def calculate_risk_assessment (metrics : FinancialMetrics)
    (pattaasu : Option PattaasuMetrics) : RiskAssessment :=
  { ticker := metrics.ticker
    overall_risk := overallFromLevels
      [(leverageRiskOf metrics.debt_to_equity).1,
       (liquidityRiskOf metrics.cash_and_equivalents metrics.total_liabilities).1,
       (governanceRiskOf pattaasu).1]
    leverage_risk := (leverageRiskOf metrics.debt_to_equity).1
    liquidity_risk :=
      (liquidityRiskOf metrics.cash_and_equivalents metrics.total_liabilities).1
    governance_risk := (governanceRiskOf pattaasu).1
    risk_factors :=
      (leverageRiskOf metrics.debt_to_equity).2.1 ++
      (liquidityRiskOf metrics.cash_and_equivalents metrics.total_liabilities).2.1 ++
      (governanceRiskOf pattaasu).2.1
    mitigants :=
      (leverageRiskOf metrics.debt_to_equity).2.2 ++
      (liquidityRiskOf metrics.cash_and_equivalents metrics.total_liabilities).2.2 ++
      (governanceRiskOf pattaasu).2.2 }

example :
    (calculate_risk_assessment
      { ticker := "TEST", total_debt := some 100, total_equity := some 500,
        cash_and_equivalents := some 50, total_liabilities := some 200 }
      Option.none).leverage_risk = RiskLevel.low := by
  norm_num [calculate_risk_assessment, leverageRiskOf,
    FinancialMetrics.debt_to_equity]

/-- `FundamentalScore` (deep_analysis.py lines 41-84): the fields
`generate_rating` and `generate_bull_bear_cases` read. -/
structure FundamentalScore where
  total_score : ℤ := 0
  profitability_score : ℤ := 0
  solvency_score : ℤ := 0
  efficiency_score : ℤ := 0
  growth_score : ℤ := 0
  pattaasu_debt_ok : Bool := false
  pattaasu_pledging_ok : Bool := true
  pattaasu_fcf_ok : Bool := false
  roe : Option ℚ := Option.none
deriving DecidableEq, Repr

/-- `TechnicalScore` (deep_analysis.py lines 123-132): the field
`generate_rating` reads. -/
structure TechnicalScore where
  strength : ℤ := 50
deriving DecidableEq, Repr

/-- `SentimentScore.overall_sentiment` (deep_analysis.py line 163),
raw range -100..100. -/
structure SentimentScore where
  overall_sentiment : ℤ := 0
deriving DecidableEq, Repr

/-- `ButterflyEffect.geo_score` (deep_analysis.py line 185),
raw range -50..50. -/
structure ButterflyEffect where
  geo_score : ℤ := 0
deriving DecidableEq, Repr

/-- Sentiment normalization of `generate_rating` (deep_analysis.py line
408): `((overall_sentiment + 100) / 2) if sentiment else 50`. -/
def sentNorm (s : Option SentimentScore) : ℚ :=
  match s with
  | some x => ((x.overall_sentiment : ℚ) + 100) / 2
  | Option.none => 50

/-- Geopolitical normalization (deep_analysis.py line 409):
`(geo_score + 50) if butterfly else 50`. -/
def geoNorm (b : Option ButterflyEffect) : ℚ :=
  match b with
  | some x => (x.geo_score : ℚ) + 50
  | Option.none => 50

/-- The fixed-weight sum of `generate_rating` (deep_analysis.py lines
399-417): fundamental 50%, technical 25%, sentiment 15%, geopolitical 10%. -/
def weightedTotal (fund tech sent geo : ℚ) : ℚ :=
  fund * 0.5 + tech * 0.25 + sent * 0.15 + geo * 0.1

/-- Pattaasu bonus/penalty (deep_analysis.py lines 419-424): +10 when both
compliance flags hold, else -15 when the debt flag fails. -/
def pattaasuAdjust (f : FundamentalScore) (total : ℚ) : ℚ :=
  if f.pattaasu_debt_ok && f.pattaasu_fcf_ok then total + 10
  else if !f.pattaasu_debt_ok then total - 15
  else total

/-- Rating thresholds and confidence (deep_analysis.py lines 428-445);
`int(total)` truncates, which on the clamped range [0,100] is the floor. -/
def ratingOf (total : ℚ) : Rating × ℤ :=
  if total ≥ 80 then (Rating.STRONG_BUY, min 95 (Int.floor total))
  else if total ≥ 65 then (Rating.BUY, min 85 (Int.floor total))
  else if total ≥ 45 then (Rating.HOLD, 60)
  else if total ≥ 30 then (Rating.SELL, min 75 (100 - Int.floor total))
  else (Rating.STRONG_SELL, min 90 (100 - Int.floor total))

/-- `DeepAnalyzer.generate_rating` (deep_analysis.py lines 386-445). -/
def generate_rating (fundamental : FundamentalScore)
    (technical : TechnicalScore) (sentiment : Option SentimentScore)
    (butterfly : Option ButterflyEffect) : Rating × ℤ :=
  ratingOf (max 0 (min 100
    (pattaasuAdjust fundamental
      (weightedTotal (fundamental.total_score : ℚ) (technical.strength : ℚ)
        (sentNorm sentiment) (geoNorm butterfly)))))

/-- The metrics dictionary `PattaasuAnalyzer.quick_validate` reads
(pattaasu.py lines 57-93): each key may be absent. -/
structure QuickMetrics where
  debt_to_equity : Option ℚ := Option.none
  promoter_pledging_pct : Option ℚ := Option.none
  free_cash_flow_year1 : Option ℚ := Option.none
  free_cash_flow_year2 : Option ℚ := Option.none
  free_cash_flow_year3 : Option ℚ := Option.none
deriving DecidableEq, Repr

/-- The error list built by `quick_validate`: D/E ≥ 1.0, pledging > 0, and
each FCF year ≤ 0 (absent fields are skipped; every check runs). -/
def quickValidateErrors (m : QuickMetrics) : List String :=
  (match m.debt_to_equity with
   | some v => if 1 ≤ v then
       ["Debt-to-Equity " ++ toString v ++ " exceeds limit of 1.0"]
     else []
   | Option.none => []) ++
  (match m.promoter_pledging_pct with
   | some v => if 0 < v then
       ["Promoter pledging " ++ toString v ++ "% detected (must be 0%)"]
     else []
   | Option.none => []) ++
  (match m.free_cash_flow_year1 with
   | some v => if v ≤ 0 then
       ["Negative FCF in Year 1: " ++ toString v] else []
   | Option.none => []) ++
  (match m.free_cash_flow_year2 with
   | some v => if v ≤ 0 then
       ["Negative FCF in Year 2: " ++ toString v] else []
   | Option.none => []) ++
  (match m.free_cash_flow_year3 with
   | some v => if v ≤ 0 then
       ["Negative FCF in Year 3: " ++ toString v] else []
   | Option.none => [])

/-- `PattaasuAnalyzer.quick_validate` (pattaasu.py lines 57-93): returns
`(len(errors) == 0, errors)`. -/
def quick_validate (m : QuickMetrics) : Bool × List String :=
  (quickValidateErrors m = [], quickValidateErrors m)

/-- A raw field value reaching `DeepAnalyzer._to_decimal`
(deep_analysis.py lines 549-556): `None`, a number (whose `str()`
round-trips through `Decimal`), or an arbitrary string. -/
inductive RawValue where
  | pyNone
  | pyNum (q : ℚ)
  | pyStr (s : String)
deriving DecidableEq, Repr

/-- The Python exception `Decimal(...)` raises on an unparseable string:
`decimal.InvalidOperation`, a subclass of `ArithmeticError` — not of
`ValueError` or `TypeError`. -/
inductive PyExc where
  | invalidOperation
deriving DecidableEq, Repr

/-- Digits-so-far accumulator for the decimal-string grammar. -/
def digitsVal (ds : List Char) : ℕ :=
  ds.foldl (fun acc c => acc * 10 + (c.toNat - 48)) 0

/-- Consume an optional leading sign; `true` means negative. -/
def parseSign : List Char → Bool × List Char
  | '+' :: rest => (false, rest)
  | '-' :: rest => (true, rest)
  | cs => (false, cs)

/-- Longest leading run of ASCII digits. -/
def parseDigitRun : List Char → List Char × List Char
  | [] => ([], [])
  | c :: rest =>
    if c.isDigit then
      let p := parseDigitRun rest
      (c :: p.1, p.2)
    else ([], c :: rest)

/-- `digits [. digits?] | . digits`, returning the value and the rest. -/
def parseMantissa (cs : List Char) : Option (ℚ × List Char) :=
  let ip := parseDigitRun cs
  match ip.2 with
  | '.' :: cs2 =>
    let fp := parseDigitRun cs2
    if ip.1 = [] ∧ fp.1 = [] then Option.none
    else some ((digitsVal ip.1 : ℚ) +
      (digitsVal fp.1 : ℚ) / (10 : ℚ) ^ fp.1.length, fp.2)
  | rest => if ip.1 = [] then Option.none else some ((digitsVal ip.1 : ℚ), rest)

/-- `[+|-] digits` exponent tail, which must consume everything. -/
def parseExponentTail (cs : List Char) : Option ℤ :=
  let sg := parseSign cs
  let ds := parseDigitRun sg.2
  if ds.1 = [] ∨ ds.2 ≠ [] then Option.none
  else some (if sg.1 then -(digitsVal ds.1 : ℤ) else (digitsVal ds.1 : ℤ))

/-- The numeric-string grammar `Decimal(str)` accepts, as an exact
rational: `[sign] (digits [. digits?] | . digits) [(e|E) [sign] digits]`.
(The special values NaN/Infinity, underscores and surrounding whitespace
— all irrelevant to the claims — are outside the modelled domain.) -/
def decimalParse (s : String) : Option ℚ :=
  let sg := parseSign s.toList
  match parseMantissa sg.2 with
  | Option.none => Option.none
  | some m =>
    let signed : ℚ := if sg.1 then -m.1 else m.1
    match m.2 with
    | [] => some signed
    | 'e' :: ecs => (parseExponentTail ecs).map (fun e => signed * (10 : ℚ) ^ e)
    | 'E' :: ecs => (parseExponentTail ecs).map (fun e => signed * (10 : ℚ) ^ e)
    | _ => Option.none

/-- `DeepAnalyzer._to_decimal` (deep_analysis.py lines 549-556):
`Decimal(str(value))` guarded by `except (ValueError, TypeError)`.  A
string `Decimal` cannot parse raises `decimal.InvalidOperation`, which
that clause does not catch, so the exception escapes the function. -/
def to_decimal (v : RawValue) : Except PyExc (Option ℚ) :=
  match v with
  | RawValue.pyNone => Except.ok Option.none
  | RawValue.pyNum q => Except.ok (some q)
  | RawValue.pyStr s =>
    match decimalParse s with
    | some q => Except.ok (some q)
    | Option.none => Except.error PyExc.invalidOperation

example : ∃ q : ℚ, decimalParse "1.5" = some q := ⟨_, rfl⟩

example : decimalParse "abc" = Option.none := rfl

lemma constructPattaasu_ok_of (i : PattaasuInput)
    (hfe : fieldErrors i = [])
    (hny : negYears i.free_cash_flow_year1 i.free_cash_flow_year2
      i.free_cash_flow_year3 = []) :
    constructPattaasu i = Except.ok (mkPattaasu i) := by
  unfold constructPattaasu
  rw [if_pos hfe, if_pos hny]

lemma debtScore_ge_10 (v : ℚ) : 10 ≤ debtScore v := by
  unfold debtScore
  split_ifs <;> norm_num

lemma debtScore_le_30 (v : ℚ) : debtScore v ≤ 30 := by
  unfold debtScore
  split_ifs <;> norm_num

lemma moatScore_bounds (r : MoatRating) : 0 ≤ moatScore r ∧ moatScore r ≤ 20 := by
  cases r <;> constructor <;> norm_num [moatScore]

/-- The debt sub-score is antitone on the non-negative half-line. -/
lemma debtScore_antitone {a b : ℚ} (ha : 0 ≤ a) (hab : a ≤ b) :
    debtScore b ≤ debtScore a := by
  unfold debtScore
  by_cases hb0 : b = 0
  · have ha0 : a = 0 := le_antisymm (hab.trans_eq hb0) ha
    simp [ha0, hb0]
  · rw [if_neg hb0]
    by_cases ha0 : a = 0
    · rw [if_pos ha0]
      split_ifs <;> linarith
    · rw [if_neg ha0]
      split_ifs <;> linarith

/-- Claim C7: whenever both `total_debt` and `total_equity` are present,
the derived `debt_to_equity` equals `total_debt / total_equity` for
positive equity and the sentinel 999.99 for equity ≤ 0; being a total
function, it raises no division error. -/
theorem debt_to_equity_quotient_or_sentinel (m : FinancialMetrics)
    (d e : ℚ) (hd : m.total_debt = some d) (he : m.total_equity = some e) :
    (0 < e → m.debt_to_equity = some (d / e)) ∧
    (e ≤ 0 → m.debt_to_equity = some (999.99 : ℚ)) := by
  have hcase : m.debt_to_equity =
      if e ≤ 0 then some (999.99 : ℚ) else some (d / e) := by
    unfold FinancialMetrics.debt_to_equity
    rw [hd, he]
  constructor
  · intro h0
    rw [hcase, if_neg (by linarith)]
  · intro h0
    rw [hcase, if_pos h0]

theorem debt_to_equity_quotient_or_sentinel_witness :
    ({ ticker := "TEST", total_debt := some 200, total_equity := some 400 } :
      FinancialMetrics).debt_to_equity = some ((200 : ℚ) / 400) :=
  (debt_to_equity_quotient_or_sentinel _ 200 400 rfl rfl).1 (by norm_num)

/-- Claim C6: every construction attempt either yields an object whose
`is_pattaasu_compliant` re-check is true, or is rejected with at least one
violation; the `Except` result makes the two outcomes mutually exclusive,
so a constructed-but-non-compliant object is impossible. -/
theorem pattaasu_construction_dichotomy (i : PattaasuInput) :
    (∀ m, constructPattaasu i = Except.ok m →
      m.is_pattaasu_compliant = true) ∧
    (∀ es, constructPattaasu i = Except.error es → es ≠ []) := by
  constructor
  · intro m hm
    obtain ⟨hmk, hfe, hny⟩ := constructPattaasu_ok hm
    obtain ⟨-, ⟨hde0, hde1⟩, -, hpl, -⟩ := fieldErrors_nil.mp hfe
    obtain ⟨h1, h2, h3⟩ := negYears_nil.mp hny
    subst hmk
    simp [PattaasuMetrics.is_pattaasu_compliant, mkPattaasu]
    exact ⟨hde1, hpl, h1, h2, h3⟩
  · intro es hes
    unfold constructPattaasu at hes
    split_ifs at hes with hfe hny
    · injection hes with h
      rw [← h]
      simp
    · injection hes with h
      rw [← h]
      exact hfe

/-- Claim C10: a successfully constructed `PattaasuMetrics` always scores
between 60 and 100: pledging must be 0 (+25), all FCF years positive so
the average is positive (+25), the debt sub-score is at least 10, and the
moat sub-score lies in [0, 20]. -/
theorem pattaasu_score_between_60_and_100 (i : PattaasuInput)
    (m : PattaasuMetrics) (h : constructPattaasu i = Except.ok m) :
    60 ≤ m.pattaasu_score ∧ m.pattaasu_score ≤ 100 := by
  obtain ⟨hmk, hfe, hny⟩ := constructPattaasu_ok h
  obtain ⟨-, ⟨hde0, hde1⟩, -, hpl, -⟩ := fieldErrors_nil.mp hfe
  obtain ⟨h1, h2, h3⟩ := negYears_nil.mp hny
  subst hmk
  show 60 ≤ pattaasuScoreCalc i ∧ pattaasuScoreCalc i ≤ 100
  unfold pattaasuScoreCalc
  rw [if_pos hpl, if_pos (by linarith)]
  have hd1 := debtScore_ge_10 i.debt_to_equity
  have hd2 := debtScore_le_30 i.debt_to_equity
  have hm := moatScore_bounds i.moat_rating
  constructor
  · linarith [hm.1]
  · linarith [hm.2]

/-- Claim C9: holding pledging, the three FCF years and the moat fixed,
a constructed `PattaasuMetrics` with smaller (or equal) debt_to_equity
never scores lower. -/
theorem pattaasu_score_antitone_in_debt (i1 i2 : PattaasuInput)
    (m1 m2 : PattaasuMetrics)
    (h1 : constructPattaasu i1 = Except.ok m1)
    (h2 : constructPattaasu i2 = Except.ok m2)
    (hp : m1.promoter_pledging_pct = m2.promoter_pledging_pct)
    (hf1 : m1.free_cash_flow_year1 = m2.free_cash_flow_year1)
    (hf2 : m1.free_cash_flow_year2 = m2.free_cash_flow_year2)
    (hf3 : m1.free_cash_flow_year3 = m2.free_cash_flow_year3)
    (hmr : m1.moat_rating = m2.moat_rating)
    (hde : m1.debt_to_equity ≤ m2.debt_to_equity) :
    m2.pattaasu_score ≤ m1.pattaasu_score := by
  obtain ⟨e1, f1, g1⟩ := constructPattaasu_ok h1
  obtain ⟨e2, f2, g2⟩ := constructPattaasu_ok h2
  obtain ⟨-, ⟨hde0, -⟩, -, -, -⟩ := fieldErrors_nil.mp f1
  subst e1
  subst e2
  simp only [mkPattaasu] at hp hf1 hf2 hf3 hmr hde ⊢
  unfold pattaasuScoreCalc
  rw [← hp, ← hf1, ← hf2, ← hf3, ← hmr]
  have hds := debtScore_antitone hde0 hde
  linarith

/-- A compliant construction input with zero debt. -/
def inpNoDebt : PattaasuInput :=
  { ticker := "LOWDE", debt_to_equity := 0, promoter_pledging_pct := 0,
    free_cash_flow_year1 := 10, free_cash_flow_year2 := 10,
    free_cash_flow_year3 := 10 }

/-- The same input with debt_to_equity raised to 2/5. -/
def inpSomeDebt : PattaasuInput :=
  { ticker := "HIGHDE", debt_to_equity := 2 / 5, promoter_pledging_pct := 0,
    free_cash_flow_year1 := 10, free_cash_flow_year2 := 10,
    free_cash_flow_year3 := 10 }

lemma inpNoDebt_ok :
    constructPattaasu inpNoDebt = Except.ok (mkPattaasu inpNoDebt) :=
  constructPattaasu_ok_of _
    (fieldErrors_nil.mpr ⟨⟨by decide, by decide⟩,
      ⟨by norm_num [inpNoDebt], by norm_num [inpNoDebt]⟩,
      by norm_num [inpNoDebt], by norm_num [inpNoDebt], rfl⟩)
    (negYears_nil.mpr ⟨by norm_num [inpNoDebt], by norm_num [inpNoDebt],
      by norm_num [inpNoDebt]⟩)

lemma inpSomeDebt_ok :
    constructPattaasu inpSomeDebt = Except.ok (mkPattaasu inpSomeDebt) :=
  constructPattaasu_ok_of _
    (fieldErrors_nil.mpr ⟨⟨by decide, by decide⟩,
      ⟨by norm_num [inpSomeDebt], by norm_num [inpSomeDebt]⟩,
      by norm_num [inpSomeDebt], by norm_num [inpSomeDebt], rfl⟩)
    (negYears_nil.mpr ⟨by norm_num [inpSomeDebt], by norm_num [inpSomeDebt],
      by norm_num [inpSomeDebt]⟩)

theorem pattaasu_score_between_60_and_100_witness :
    60 ≤ (mkPattaasu inpNoDebt).pattaasu_score ∧
      (mkPattaasu inpNoDebt).pattaasu_score ≤ 100 :=
  pattaasu_score_between_60_and_100 inpNoDebt (mkPattaasu inpNoDebt)
    inpNoDebt_ok

theorem pattaasu_score_antitone_in_debt_witness :
    (mkPattaasu inpSomeDebt).pattaasu_score ≤
      (mkPattaasu inpNoDebt).pattaasu_score :=
  pattaasu_score_antitone_in_debt inpNoDebt inpSomeDebt
    (mkPattaasu inpNoDebt) (mkPattaasu inpSomeDebt)
    inpNoDebt_ok inpSomeDebt_ok rfl rfl rfl rfl rfl
    (by norm_num [mkPattaasu, inpNoDebt, inpSomeDebt])

/-- The spec scenario input: D/E = 1.5, pledging = 10, FCF = [-100, 100, 100]. -/
def inpC2 : PattaasuInput :=
  { ticker := "REJECT", debt_to_equity := 3 / 2, promoter_pledging_pct := 10,
    free_cash_flow_year1 := -100, free_cash_flow_year2 := 100,
    free_cash_flow_year3 := 100 }

lemma fieldErrors_inpC2 :
    fieldErrors inpC2 =
      deFieldErrors (3 / 2) ++ pledgingFieldErrors 10 := by
  have h0 : fieldErrors inpC2 = tickerFieldErrors "REJECT" ++
      deFieldErrors (3 / 2) ++ totalDebtFieldErrors 0 ++
      pledgingFieldErrors 10 ++ holdingFieldErrors Option.none := rfl
  have h1 : tickerFieldErrors "REJECT" = [] := by decide
  have h2 : totalDebtFieldErrors 0 = [] := by norm_num [totalDebtFieldErrors]
  rw [h0, h1, h2]
  simp [holdingFieldErrors]

lemma fieldErrors_inpC2_ne : fieldErrors inpC2 ≠ [] := by
  intro h
  rw [fieldErrors_inpC2] at h
  norm_num [deFieldErrors, pledgingFieldErrors] at h
  exact List.cons_ne_nil _ _ h

/-- Claim C2 counterexample: the scenario input {D/E = 1.5, pledging = 10,
FCF = [-100, 100, 100]} is rejected with exactly 2 violations, not the 3
the claim states: the FCF model validator never runs when field
validation has already failed. -/
theorem construction_two_violations_not_three :
    rejectionCount inpC2 = 2 ∧ (2 : ℕ) ≠ 3 := by
  refine ⟨?_, by decide⟩
  unfold rejectionCount constructPattaasu
  rw [if_neg fieldErrors_inpC2_ne]
  show (fieldErrors inpC2).length = 2
  rw [fieldErrors_inpC2, List.length_append]
  norm_num [deFieldErrors, pledgingFieldErrors]

/-- A field-valid input whose FCF fails in two years. -/
def inpFcfTwoBad : PattaasuInput :=
  { ticker := "BURN", debt_to_equity := 0, promoter_pledging_pct := 0,
    free_cash_flow_year1 := -100, free_cash_flow_year2 := -50,
    free_cash_flow_year3 := 100 }

/-- Claim C2 amended: the scenario input is rejected with exactly the two
field-level violations (debt and pledging) — the Year 1 FCF violation is
not reported because `validate_cash_flow_consistency` is a model-level
validator that pydantic runs only when every field validated; when the
fields do pass, all failing FCF years are reported together, each by name,
in the single FCF violation. -/
theorem construction_rejection_enumerates_field_violations :
    constructPattaasu inpC2 =
      Except.error (deFieldErrors (3 / 2) ++ pledgingFieldErrors 10) ∧
    (deFieldErrors (3 / 2)).length = 1 ∧
    (pledgingFieldErrors 10).length = 1 ∧
    constructPattaasu inpFcfTwoBad = Except.error
      ["Negative FCF in: Year 1, Year 2. Pattaasu criteria requires positive FCF for all 3 years."] := by
  refine ⟨?_, ?_, ?_, ?_⟩
  · unfold constructPattaasu
    rw [if_neg fieldErrors_inpC2_ne, fieldErrors_inpC2]
  · norm_num [deFieldErrors]
  · norm_num [pledgingFieldErrors]
  · rfl

/-- A quick-validate metrics dictionary with every field present. -/
def qmOf (de pl f1 f2 f3 : ℚ) : QuickMetrics :=
  { debt_to_equity := some de, promoter_pledging_pct := some pl,
    free_cash_flow_year1 := some f1, free_cash_flow_year2 := some f2,
    free_cash_flow_year3 := some f3 }

lemma ite_singleton_eq_nil {c : Prop} [Decidable c] {s : String} :
    (if c then [s] else []) = [] ↔ ¬c := by
  split_ifs with h <;> simp [h]

lemma length_ite_singleton {c : Prop} [Decidable c] {s : String} :
    (if c then [s] else []).length = if c then 1 else 0 := by
  split_ifs <;> rfl

lemma quick_validate_pass_iff (de pl f1 f2 f3 : ℚ) :
    (quick_validate (qmOf de pl f1 f2 f3)).1 = true ↔
      de < 1 ∧ pl ≤ 0 ∧ 0 < f1 ∧ 0 < f2 ∧ 0 < f3 := by
  show decide (quickValidateErrors (qmOf de pl f1 f2 f3) = []) = true ↔ _
  rw [decide_eq_true_eq]
  unfold quickValidateErrors qmOf
  simp only [List.append_eq_nil, ite_singleton_eq_nil, not_le, not_lt]
  tauto

lemma constructPattaasu_isSuccess_iff (i : PattaasuInput) :
    isSuccess (constructPattaasu i) = true ↔
      fieldErrors i = [] ∧ negYears i.free_cash_flow_year1
        i.free_cash_flow_year2 i.free_cash_flow_year3 = [] := by
  unfold constructPattaasu isSuccess
  split_ifs with h1 h2
  · simp [h1, h2]
  · simp [h1, h2]
  · simp [h1]

/-- The input with D/E = -1 on which quick_validate and strict
construction disagree. -/
def inpNegDE : PattaasuInput :=
  { ticker := "NEGDE", debt_to_equity := -1, promoter_pledging_pct := 0,
    free_cash_flow_year1 := 1, free_cash_flow_year2 := 1,
    free_cash_flow_year3 := 1 }

/-- Claim C5 counterexample: at debt_to_equity = -1 (pledging 0, all FCF
positive) quick_validate reports compliant — it never checks D/E ≥ 0 —
while strict `PattaasuMetrics` construction rejects the negative ratio,
so the claimed equivalence fails. -/
theorem quick_validate_diverges_from_strict_at_negative_de :
    (quick_validate (qmOf (-1) 0 1 1 1)).1 = true ∧
    isSuccess (constructPattaasu inpNegDE) = false := by
  constructor
  · decide
  · decide

/-- Claim C5 amended: quick_validate applies the D/E ≥ 1.0, pledging > 0
and per-year FCF ≤ 0 checks (it does not check D/E ≥ 0), reporting one
violation per failed check rather than stopping at the first; restricted
to inputs with D/E ≥ 0 and pledging ≥ 0 (and a valid ticker), its
is_compliant verdict is true iff strict construction succeeds. -/
theorem quick_validate_matches_strict_on_valid_domain
    (t : String) (moat : MoatRating) (de pl f1 f2 f3 : ℚ)
    (ht1 : 1 ≤ t.length) (ht2 : t.length ≤ 10)
    (hde : 0 ≤ de) (hpl : 0 ≤ pl) :
    ((quick_validate (qmOf de pl f1 f2 f3)).1 = true ↔
      isSuccess (constructPattaasu
        { ticker := t, debt_to_equity := de, promoter_pledging_pct := pl,
          free_cash_flow_year1 := f1, free_cash_flow_year2 := f2,
          free_cash_flow_year3 := f3, moat_rating := moat }) = true) ∧
    (quick_validate (qmOf de pl f1 f2 f3)).2.length =
      ((if 1 ≤ de then 1 else 0) + (if 0 < pl then 1 else 0) +
       (if f1 ≤ 0 then 1 else 0) + (if f2 ≤ 0 then 1 else 0) +
       (if f3 ≤ 0 then 1 else 0)) := by
  constructor
  · rw [quick_validate_pass_iff, constructPattaasu_isSuccess_iff,
      fieldErrors_nil, negYears_nil]
    constructor
    · rintro ⟨h1, h2, h3, h4, h5⟩
      exact ⟨⟨⟨ht1, ht2⟩, ⟨hde, h1⟩, le_refl 0, le_antisymm h2 hpl, rfl⟩,
        h3, h4, h5⟩
    · rintro ⟨⟨-, ⟨-, h1⟩, -, hpl0, -⟩, h3, h4, h5⟩
      exact ⟨h1, le_of_eq hpl0, h3, h4, h5⟩
  · show (quickValidateErrors (qmOf de pl f1 f2 f3)).length = _
    unfold quickValidateErrors qmOf
    simp only [List.length_append, length_ite_singleton]

theorem quick_validate_matches_strict_on_valid_domain_witness :
    ((quick_validate (qmOf 0 0 10 10 10)).1 = true ↔
      isSuccess (constructPattaasu inpNoDebt) = true) ∧
    (quick_validate (qmOf 0 0 10 10 10)).2.length =
      ((if (1 : ℚ) ≤ 0 then 1 else 0) + (if (0 : ℚ) < 0 then 1 else 0) +
       (if (10 : ℚ) ≤ 0 then 1 else 0) + (if (10 : ℚ) ≤ 0 then 1 else 0) +
       (if (10 : ℚ) ≤ 0 then 1 else 0)) :=
  quick_validate_matches_strict_on_valid_domain "LOWDE" MoatRating.none
    0 0 10 10 10 (by decide) (by decide) (by norm_num) (by norm_num)

/-- Claim C3: for every call to the risk assessor the aggregate equals the
rule applied to the five component levels of the result (market and
sector always sit at their neutral `medium` default, which the rule
ignores), and the rule maps the five quoted profiles as specified. -/
theorem overall_risk_from_components (m : FinancialMetrics)
    (p : Option PattaasuMetrics) :
    ((calculate_risk_assessment m p).overall_risk =
      overallFromLevels
        [(calculate_risk_assessment m p).leverage_risk,
         (calculate_risk_assessment m p).liquidity_risk,
         (calculate_risk_assessment m p).governance_risk,
         (calculate_risk_assessment m p).market_risk,
         (calculate_risk_assessment m p).sector_risk]) ∧
    overallFromLevels [RiskLevel.critical, RiskLevel.low, RiskLevel.low,
      RiskLevel.low, RiskLevel.low] = RiskLevel.critical ∧
    overallFromLevels [RiskLevel.high, RiskLevel.high, RiskLevel.low,
      RiskLevel.low, RiskLevel.low] = RiskLevel.high ∧
    overallFromLevels [RiskLevel.high, RiskLevel.low, RiskLevel.low,
      RiskLevel.low, RiskLevel.low] = RiskLevel.medium ∧
    overallFromLevels [RiskLevel.low, RiskLevel.low, RiskLevel.low,
      RiskLevel.low, RiskLevel.low] = RiskLevel.low ∧
    overallFromLevels [RiskLevel.medium, RiskLevel.medium, RiskLevel.medium,
      RiskLevel.medium, RiskLevel.medium] = RiskLevel.medium := by
  have hpad : ∀ a b c : RiskLevel,
      overallFromLevels [a, b, c, RiskLevel.medium, RiskLevel.medium] =
        overallFromLevels [a, b, c] := by decide
  refine ⟨?_, by decide, by decide, by decide, by decide, by decide⟩
  have hm : (calculate_risk_assessment m p).market_risk =
      RiskLevel.medium := rfl
  have hs : (calculate_risk_assessment m p).sector_risk =
      RiskLevel.medium := rfl
  rw [hm, hs, hpad]
  rfl

/-- Financial metrics with cash present but zero. -/
def mZeroCash : FinancialMetrics :=
  { ticker := "ZCASH", cash_and_equivalents := some 0,
    total_liabilities := some 100 }

/-- Claim C8 counterexample: with cash = 0 present and liabilities = 100
present, the ratio is 0 ≤ 0.1, so the claim demands high liquidity risk;
the code's truthiness guard treats the zero Decimal as not-computable and
returns medium. -/
theorem liquidity_risk_zero_cash_medium_not_high :
    (calculate_risk_assessment mZeroCash Option.none).liquidity_risk =
      RiskLevel.medium ∧ RiskLevel.medium ≠ RiskLevel.high := by
  constructor
  · decide
  · decide

/-- Claim C8 amended: liquidity risk follows the cash/liabilities ratio
thresholds only when both fields are present and nonzero; when either is
absent or zero (Python truthiness makes `Decimal("0")` fall into the
not-computable branch) it is medium. -/
theorem liquidity_risk_ratio_rule (m : FinancialMetrics)
    (p : Option PattaasuMetrics) :
    (∀ c l : ℚ, m.cash_and_equivalents = some c →
      m.total_liabilities = some l → c ≠ 0 → l ≠ 0 →
      (calculate_risk_assessment m p).liquidity_risk =
        (if c / l > 0.2 then RiskLevel.low
         else if c / l > 0.1 then RiskLevel.medium
         else RiskLevel.high)) ∧
    ((m.cash_and_equivalents = Option.none ∨
      m.total_liabilities = Option.none ∨
      m.cash_and_equivalents = some 0 ∨
      m.total_liabilities = some 0) →
      (calculate_risk_assessment m p).liquidity_risk = RiskLevel.medium) := by
  have hliq : (calculate_risk_assessment m p).liquidity_risk =
      (liquidityRiskOf m.cash_and_equivalents m.total_liabilities).1 := rfl
  constructor
  · intro c l hc hl hc0 hl0
    rw [hliq, hc, hl]
    simp only [liquidityRiskOf]
    rw [if_pos ⟨hc0, hl0⟩]
    split_ifs <;> rfl
  · intro hcase
    rw [hliq]
    rcases hcase with h | h | h | h
    · rw [h]
      cases m.total_liabilities <;> rfl
    · rw [h]
      cases m.cash_and_equivalents <;> rfl
    · rw [h]
      cases m.total_liabilities with
      | none => rfl
      | some l => simp [liquidityRiskOf]
    · rw [h]
      cases m.cash_and_equivalents with
      | none => rfl
      | some c => simp [liquidityRiskOf]

/-- The spec scenario's fundamental input: total 90, both compliance
flags true. -/
def fundC1 : FundamentalScore :=
  { total_score := 90, pattaasu_debt_ok := true, pattaasu_fcf_ok := true }

/-- The spec scenario's technical input: strength 70. -/
def techC1 : TechnicalScore := { strength := 70 }

lemma generate_rating_scenario_eval :
    generate_rating fundC1 techC1 Option.none Option.none =
      (Rating.STRONG_BUY, 85) := by
  unfold generate_rating
  have h1 : ((fundC1.total_score : ℚ)) = 90 := by norm_num [fundC1]
  have h2 : ((techC1.strength : ℚ)) = 70 := by norm_num [techC1]
  have h3 : weightedTotal 90 70 (sentNorm Option.none)
      (geoNorm Option.none) = 75 := by
    norm_num [weightedTotal, sentNorm, geoNorm]
  have h4 : pattaasuAdjust fundC1 75 = 85 := by
    norm_num [pattaasuAdjust, fundC1]
  have h5 : max 0 (min 100 (85 : ℚ)) = 85 := by norm_num
  rw [h1, h2, h3, h4, h5]
  unfold ratingOf
  rw [if_pos (by norm_num)]
  norm_num [Int.floor_ofNat]

/-- Claim C1 counterexample: on fundamental total 90 (both flags true),
technical strength 70, absent sentiment/geopolitical, the engine returns
(STRONG_BUY, 85): the claim's weighted total of 62.5 and result
(BUY, 72) do not match the code, whose weighted sum is 75. -/
theorem generate_rating_scenario_not_buy_72 :
    generate_rating fundC1 techC1 Option.none Option.none =
      (Rating.STRONG_BUY, 85) ∧
    generate_rating fundC1 techC1 Option.none Option.none ≠
      (Rating.BUY, 72) := by
  refine ⟨generate_rating_scenario_eval, ?_⟩
  rw [generate_rating_scenario_eval]
  decide

/-- Claim C1 amended: with both defaults at the neutral midpoint 50 the
weighted total is 90×0.5 + 70×0.25 + 50×0.15 + 50×0.10 = 75 (not 62.5),
the +10 Pattaasu bonus raises it to 85, and the result is STRONG_BUY with
confidence min(95, 85) = 85. -/
theorem generate_rating_scenario_values :
    weightedTotal 90 70 (sentNorm Option.none) (geoNorm Option.none) = 75 ∧
    pattaasuAdjust fundC1 75 = 85 ∧
    generate_rating fundC1 techC1 Option.none Option.none =
      (Rating.STRONG_BUY, 85) := by
  refine ⟨?_, ?_, generate_rating_scenario_eval⟩
  · norm_num [weightedTotal, sentNorm, geoNorm]
  · norm_num [pattaasuAdjust, fundC1]

/-- Claim C4 (code bug): coercion of the unparseable string "abc" raises
`decimal.InvalidOperation` — which the `except (ValueError, TypeError)`
clause does not catch — instead of degrading the field to absent, while
`None` and genuine numbers coerce without error. -/
theorem to_decimal_raises_on_unparseable_string :
    to_decimal (RawValue.pyStr "abc") =
      Except.error PyExc.invalidOperation ∧
    to_decimal RawValue.pyNone = Except.ok Option.none ∧
    to_decimal (RawValue.pyNum 5) = Except.ok (some 5) :=
  ⟨rfl, rfl, rfl⟩
